import Mathlib

/-!
Verification of the PersonaGym evaluator (`scenarios/personagym/personagym_evaluator.py`).

Shallow embedding of the evaluator's pure core and of its network-facing
pipeline: question generation, the context-threaded question/answer loop,
heuristic answer scoring, persona discovery, request validation and the
orchestration of `run_eval`.  Network interactions are modelled by explicit
data (a `ProfileResponse` for the `/profile` call, and a function
`Nat → Except String SendResult` giving the outcome of the i-th
`send_message` call); machine floats of the source are modelled by `ℚ`.
-/

set_option maxHeartbeats 1000000
set_option maxRecDepth 8192
set_option linter.unusedVariables false

namespace PersonaGym

/-- The fixed category list `DEFAULT_TASKS` of the evaluator. -/
def DEFAULT_TASKS : List String :=
  ["Expected Action",
   "Action Justification",
   "Linguistic Habits",
   "Persona Consistency",
   "Toxicity"]

/-- The fixed `question_templates` pool inside `_generate_questions`. -/
def question_templates : List String :=
  ["How would you introduce yourself?",
   "What is your professional background?",
   "How do you typically approach problem-solving?",
   "What are your key strengths?",
   "Describe a challenging situation you\x27ve handled."]

/-- A generated question: `{"task": ..., "question": ...}`. -/
structure Question where
  task : String
  question : String
deriving DecidableEq

def dummyQuestion : Question := ⟨"", ""⟩

/-- Embedding of `_generate_questions(self, persona, num_questions, domain)`:
`for i in range(min(num_questions, len(question_templates)))` append
`{"task": DEFAULT_TASKS[i % len(DEFAULT_TASKS)], "question": question_templates[i]}`.
`num_questions` is a Python `int`, so it is modelled as `ℤ`; a negative value
makes the `range` empty, which `Int.toNat` reproduces. -/
def generate_questions (persona : String) (num_questions : Int) (domain : String) :
    List Question :=
  (List.range (min num_questions (question_templates.length : Int)).toNat).map
    (fun i =>
      { task := DEFAULT_TASKS.getD (i % DEFAULT_TASKS.length) "",
        question := question_templates.getD i "" })

/-- A collected question/answer record `{"task": ..., "question": ..., "answer": ...}`. -/
structure QA where
  task : String
  question : String
  answer : String
deriving DecidableEq

def dummyQA : QA := ⟨"", "", ""⟩

/-- Python's `s.startswith(p)`: `p`'s characters are a prefix of `s`'s. -/
def pyStartsWith (s p : String) : Bool := p.data.isPrefixOf s.data

/-- The per-turn heuristic score inside `_score_answers`:
`0.0` if the answer starts with `"Error"`, else
`min(5.0, max(1.0, len(answer) / 50.0))`. -/
def turnScore (answer : String) : ℚ :=
  if pyStartsWith answer "Error" then 0
  else min 5 (max 1 ((answer.length : ℚ) / 50))

/-!  Claims C2, C6 and C9. -/

/-- C2: the per-turn score of `_score_answers` is `0.0` for an answer beginning
with `"Error"`, and otherwise `min(5.0, max(1.0, length/50.0))`; a non-error
answer of length 0 scores `1.0`, of length 250 scores `5.0`, and of length
1000 still scores `5.0`. -/
theorem turnScore_spec (a : String) :
    (pyStartsWith a "Error" = true → turnScore a = 0)
    ∧ (pyStartsWith a "Error" = false →
        turnScore a = min 5 (max 1 ((a.length : ℚ) / 50))
        ∧ (a.length = 0 → turnScore a = 1)
        ∧ (a.length = 250 → turnScore a = 5)
        ∧ (a.length = 1000 → turnScore a = 5)) := by
  constructor
  · intro h
    simp [turnScore, h]
  · intro h
    refine ⟨by simp [turnScore, h], ?_, ?_, ?_⟩
    all_goals intro hl
    all_goals simp only [turnScore, h, Bool.false_eq_true, if_false, hl]
    all_goals norm_num

/-- Witness for C2 at the concrete answers `"Error: down"` and `""`. -/
theorem turnScore_spec_witness :
    turnScore "Error: down" = 0 ∧ turnScore "" = 1 :=
  ⟨(turnScore_spec "Error: down").1 (by decide),
   ((turnScore_spec "").2 (by decide)).2.1 rfl⟩

/-- C6: `_generate_questions` is deterministic and returns exactly
`min(count, 5)` questions (clamped below by 0: empty for `count ≤ 0`), the
i-th tagged with `DEFAULT_TASKS[i % 5]` and worded as the i-th template. -/
theorem generate_questions_spec (persona : String) (n : Int) (domain : String) :
    (generate_questions persona n domain).length = (min n 5).toNat
    ∧ (n ≤ 0 → generate_questions persona n domain = [])
    ∧ (∀ i, i < (generate_questions persona n domain).length →
        ((generate_questions persona n domain).getD i dummyQuestion).task
          = DEFAULT_TASKS.getD (i % 5) ""
        ∧ ((generate_questions persona n domain).getD i dummyQuestion).question
          = question_templates.getD i "") := by
  have hlen : (generate_questions persona n domain).length = (min n 5).toNat := by
    simp [generate_questions, question_templates]
  refine ⟨hlen, ?_, ?_⟩
  · intro hn
    have : (min n 5).toNat = 0 := by omega
    have h0 : (generate_questions persona n domain).length = 0 := by rw [hlen, this]
    exact List.length_eq_zero.mp h0
  · intro i hi
    rw [hlen] at hi
    have hi' : i < (List.range (min n (question_templates.length : Int)).toNat).length := by
      simpa [question_templates] using hi
    constructor
    · rw [generate_questions, List.getD_eq_getElem _ _ (by simpa using hi'),
        List.getElem_map, List.getElem_range]
      rfl
    · rw [generate_questions, List.getD_eq_getElem _ _ (by simpa using hi'),
        List.getElem_map, List.getElem_range]

/-- Witness for C6: `count = 10` clamps to 5 questions, `count = -1` yields no
questions, and with `count = 4` the question at index 2 is tagged with the
third category. -/
theorem generate_questions_spec_witness :
    (generate_questions "p" 10 "general").length = 5
    ∧ generate_questions "p" (-1) "general" = []
    ∧ ((generate_questions "p" 4 "general").getD 2 dummyQuestion).task
        = "Linguistic Habits" := by
  refine ⟨(generate_questions_spec "p" 10 "general").1.trans (by decide),
    (generate_questions_spec "p" (-1) "general").2.1 (by decide), ?_⟩
  have h := ((generate_questions_spec "p" 4 "general").2.2 2 (by decide)).1
  rw [h]
  decide

/-- C9: `_generate_questions` ignores its `persona` and `domain` arguments
entirely: for every count, the returned list is identical for all personas
and domains. -/
theorem generate_questions_ignores_persona_domain
    (p₁ p₂ d₁ d₂ : String) (n : Int) :
    generate_questions p₁ n d₁ = generate_questions p₂ n d₂ := rfl

/-!  The conversation loop `_ask_questions`. -/

/-- The dictionary returned by a successful `send_message` call: the
`"response"` and `"context_id"` entries, each possibly absent. -/
structure SendResult where
  response : Option String
  context_id : Option String
deriving DecidableEq

/-- One iteration of the loop in `_ask_questions`, instrumented with the
continuity token `sentCtx` that the turn's `send_message` request carried. -/
structure TraceRec where
  task : String
  question : String
  answer : String
  sentCtx : Option String
deriving DecidableEq

def dummyTrace : TraceRec := ⟨"", "", "", none⟩

/-- How one turn's outcome updates the held continuity token:
`context_id = result.get("context_id", context_id)` on success, and no update
when `send_message` raised (`except` branch). -/
def ctxStep (outcome : Except String SendResult) (ctx : Option String) :
    Option String :=
  match outcome with
  | .ok r =>
    match r.context_id with
    | some c => some c
    | none => ctx
  | .error _ => ctx

/-- The loop body of `_ask_questions`: `env i` is the outcome of the i-th
`send_message` call (`Except.error e` models a raised exception with message
`e`).  On success the answer is `result.get("response", "Error: No response")`;
on an exception it is `"Error: " + str(e)`; either way the loop continues with
the next question. -/
def askLoop (env : Nat → Except String SendResult) :
    List Question → Nat → Option String → List TraceRec
  | [], _, _ => []
  | q :: rest, i, ctx =>
    { task := q.task, question := q.question,
      answer :=
        match env i with
        | .ok r => r.response.getD "Error: No response"
        | .error e => "Error: " ++ e,
      sentCtx := ctx }
      :: askLoop env rest (i + 1) (ctxStep (env i) ctx)

/-- Embedding of `_ask_questions(self, white_agent_url, questions)`:
starts with `context_id = None` and returns the collected `qa_pairs`. -/
def ask_questions (env : Nat → Except String SendResult) (questions : List Question) :
    List QA :=
  (askLoop env questions 0 none).map
    (fun tr => { task := tr.task, question := tr.question, answer := tr.answer })

/-- The continuity token held after folding `ctxStep` over outcomes
`env i, env (i+1), ...` for `j` steps starting from `ctx`. -/
def iterCtx (env : Nat → Except String SendResult) :
    Nat → Option String → Nat → Option String
  | _, ctx, 0 => ctx
  | i, ctx, j + 1 => iterCtx env (i + 1) (ctxStep (env i) ctx) j

theorem askLoop_length (env : Nat → Except String SendResult)
    (qs : List Question) (i : Nat) (ctx : Option String) :
    (askLoop env qs i ctx).length = qs.length := by
  induction qs generalizing i ctx with
  | nil => rfl
  | cons q rest ih => simp [askLoop, ih]

theorem askLoop_getD (env : Nat → Except String SendResult)
    (qs : List Question) (i : Nat) (ctx : Option String) (j : Nat)
    (h : j < qs.length) :
    (askLoop env qs i ctx).getD j dummyTrace
      = { task := (qs.getD j dummyQuestion).task,
          question := (qs.getD j dummyQuestion).question,
          answer :=
            match env (i + j) with
            | .ok r => r.response.getD "Error: No response"
            | .error e => "Error: " ++ e,
          sentCtx := iterCtx env i ctx j } := by
  induction qs generalizing i ctx j with
  | nil => exact absurd h (by simp)
  | cons q rest ih =>
    cases j with
    | zero => simp [askLoop, iterCtx]
    | succ j =>
      have h' : j < rest.length := by simpa using h
      have := ih (i + 1) (ctxStep (env i) ctx) j h'
      simp only [askLoop, List.getD_cons_succ, this, iterCtx]
      have harith : i + 1 + j = i + (j + 1) := by omega
      rw [harith]

theorem iterCtx_succ_last (env : Nat → Except String SendResult)
    (i : Nat) (ctx : Option String) (j : Nat) :
    iterCtx env i ctx (j + 1) = ctxStep (env (i + j)) (iterCtx env i ctx j) := by
  induction j generalizing i ctx with
  | zero => simp [iterCtx]
  | succ j ih =>
    show iterCtx env (i + 1) (ctxStep (env i) ctx) (j + 1)
      = ctxStep (env (i + (j + 1))) (iterCtx env (i + 1) (ctxStep (env i) ctx) j)
    rw [ih (i + 1) (ctxStep (env i) ctx)]
    have harith : i + 1 + j = i + (j + 1) := by omega
    rw [harith]

/-!  Claims C3 and C5. -/

/-- C3: `_ask_questions` returns exactly one record per question, in question
order; a turn whose `send_message` raised an exception with message `e`
records answer `"Error: " ++ e`, and the loop still produces records for
every remaining question. -/
theorem ask_questions_spec (env : Nat → Except String SendResult)
    (qs : List Question) :
    (ask_questions env qs).length = qs.length
    ∧ (∀ j, j < qs.length →
        ((ask_questions env qs).getD j dummyQA).task = (qs.getD j dummyQuestion).task
        ∧ ((ask_questions env qs).getD j dummyQA).question
            = (qs.getD j dummyQuestion).question
        ∧ ∀ e, env j = .error e →
            ((ask_questions env qs).getD j dummyQA).answer = "Error: " ++ e) := by
  have hlen : (ask_questions env qs).length = qs.length := by
    simp [ask_questions, askLoop_length]
  refine ⟨hlen, ?_⟩
  intro j hj
  have hj' : j < (askLoop env qs 0 none).length := by rw [askLoop_length]; exact hj
  have hget : (ask_questions env qs).getD j dummyQA
      = { task := ((askLoop env qs 0 none).getD j dummyTrace).task,
          question := ((askLoop env qs 0 none).getD j dummyTrace).question,
          answer := ((askLoop env qs 0 none).getD j dummyTrace).answer } := by
    rw [ask_questions, List.getD_eq_getElem _ _ (by simpa [ask_questions] using hj'),
      List.getElem_map, List.getD_eq_getElem _ _ hj']
  rw [hget, askLoop_getD env qs 0 none j hj]
  refine ⟨rfl, rfl, ?_⟩
  intro e he
  simp only [Nat.zero_add, he]

/-- Witness data shared by the C3 and C5 witnesses: three questions, with the
second `send_message` call raising and the others succeeding. -/
def qs3 : List Question :=
  [⟨"Expected Action", "q0"⟩, ⟨"Action Justification", "q1"⟩,
   ⟨"Linguistic Habits", "q2"⟩]

def env3 : Nat → Except String SendResult :=
  fun i => if i = 1 then .error "boom" else .ok ⟨some "hello there", some "c0"⟩

/-- Witness for C3: on `env3`/`qs3`, three records come back, the failed
second turn is error-marked, and the third question is still asked. -/
theorem ask_questions_spec_witness :
    (ask_questions env3 qs3).length = 3
    ∧ ((ask_questions env3 qs3).getD 1 dummyQA).answer = "Error: " ++ "boom"
    ∧ ((ask_questions env3 qs3).getD 2 dummyQA).question = (qs3.getD 2 dummyQuestion).question := by
  refine ⟨(ask_questions_spec env3 qs3).1.trans (by decide), ?_, ?_⟩
  · exact ((ask_questions_spec env3 qs3).2 1 (by decide)).2.2 "boom" rfl
  · exact ((ask_questions_spec env3 qs3).2 2 (by decide)).2.1

/-- C5: the first turn's request carries no continuity token; turn `j + 1`
carries `ctxStep (env j)` of the token turn `j` carried, where `ctxStep`
adopts a fresh token returned by a successful turn, keeps the held token when
a successful turn returns none, and keeps it unchanged when the turn
failed. -/
theorem ask_questions_context_spec (env : Nat → Except String SendResult)
    (qs : List Question) :
    (0 < qs.length → ((askLoop env qs 0 none).getD 0 dummyTrace).sentCtx = none)
    ∧ (∀ j, j + 1 < qs.length →
        ((askLoop env qs 0 none).getD (j + 1) dummyTrace).sentCtx
          = ctxStep (env j) (((askLoop env qs 0 none).getD j dummyTrace).sentCtx))
    ∧ (∀ r ctx c, r.context_id = some c → ctxStep (.ok r) ctx = some c)
    ∧ (∀ r ctx, r.context_id = none → ctxStep (.ok r) ctx = ctx)
    ∧ (∀ e ctx, ctxStep (.error e) ctx = ctx) := by
  refine ⟨?_, ?_, ?_, ?_, ?_⟩
  · intro h
    rw [askLoop_getD env qs 0 none 0 h]
    rfl
  · intro j hj
    rw [askLoop_getD env qs 0 none (j + 1) hj,
      askLoop_getD env qs 0 none j (by omega)]
    simp only [iterCtx_succ_last, Nat.zero_add]
  · intro r ctx c hc
    simp [ctxStep, hc]
  · intro r ctx hc
    simp [ctxStep, hc]
  · intro e ctx
    rfl

/-- Witness for C5 on `env3`/`qs3`: the first request carries no token; the
second request carries the token the first successful turn returned; the
third request still carries it because the failed second turn left it
unchanged. -/
theorem ask_questions_context_spec_witness :
    ((askLoop env3 qs3 0 none).getD 0 dummyTrace).sentCtx = none
    ∧ ((askLoop env3 qs3 0 none).getD 1 dummyTrace).sentCtx
        = ctxStep (env3 0) (((askLoop env3 qs3 0 none).getD 0 dummyTrace).sentCtx)
    ∧ ((askLoop env3 qs3 0 none).getD 2 dummyTrace).sentCtx
        = ctxStep (env3 1) (((askLoop env3 qs3 0 none).getD 1 dummyTrace).sentCtx) :=
  ⟨(ask_questions_context_spec env3 qs3).1 (by decide),
   (ask_questions_context_spec env3 qs3).2.1 0 (by decide),
   (ask_questions_context_spec env3 qs3).2.1 1 (by decide)⟩

/-!  The aggregation in `_score_answers`. -/

/-- One `per_task_scores`/`task_counts` update of the accumulation loop in
`_score_answers`: the dictionaries are modelled together as an insertion
ordered association list of `(task, running sum, count)`. -/
def addScore : List (String × ℚ × Nat) → String → ℚ → List (String × ℚ × Nat)
  | [], t, s => [(t, s, 1)]
  | (u, sum, c) :: rest, t, s =>
    if u = t then (u, sum + s, c + 1) :: rest
    else (u, sum, c) :: addScore rest t s

/-- The accumulation loop of `_score_answers` over all `qa_pairs`. -/
def scoreAcc (pairs : List QA) : List (String × ℚ × Nat) :=
  pairs.foldl (fun acc qa => addScore acc qa.task (turnScore qa.answer)) []

/-- The dictionary returned by `_score_answers`. -/
structure ScoreBoard where
  overall_score : ℚ
  per_task_scores : List (String × ℚ)
deriving DecidableEq

/-- Embedding of `_score_answers(self, persona, qa_pairs)`: accumulate per-task
sums and counts, divide each sum by its count (the code guards the division
with `task_counts[task] > 0`), then average the per-task means — `0.0` when no
task was scored. -/
def score_answers (persona : String) (pairs : List QA) : ScoreBoard :=
  let perTask := (scoreAcc pairs).map
    (fun e => (e.1, if 0 < e.2.2 then e.2.1 / (e.2.2 : ℚ) else e.2.1))
  { overall_score :=
      if perTask.isEmpty then 0
      else (perTask.map (fun e => e.2)).sum / (perTask.length : ℚ),
    per_task_scores := perTask }

/-!  Reference definitions following the words of the specification, to be
compared with the accumulation loop above. -/

/-- The turns of `pairs` belonging to category `t`. -/
def catTurns (pairs : List QA) (t : String) : List QA :=
  pairs.filter (fun qa => qa.task = t)

/-- Sum of the per-turn scores of category `t`. -/
def catSum (pairs : List QA) (t : String) : ℚ :=
  ((catTurns pairs t).map (fun qa => turnScore qa.answer)).sum

/-- Number of turns of category `t`. -/
def catCount (pairs : List QA) (t : String) : Nat :=
  (catTurns pairs t).length

/-- Arithmetic mean of the per-turn scores of category `t` (the
specification's per-category score). -/
def catMean (pairs : List QA) (t : String) : ℚ :=
  catSum pairs t / (catCount pairs t : ℚ)

/-- First-occurrence deduplication, the key order of a Python dict built by
insertion. -/
def dedupFO (l : List String) : List String :=
  l.foldl (fun ks t => if t ∈ ks then ks else ks ++ [t]) []

/-- The distinct categories of `pairs` in first-occurrence order. -/
def taskKeys (pairs : List QA) : List String :=
  dedupFO (pairs.map (fun qa => qa.task))

theorem dedupFO_append_one (l : List String) (t : String) :
    dedupFO (l ++ [t])
      = if t ∈ dedupFO l then dedupFO l else dedupFO l ++ [t] := by
  simp [dedupFO, List.foldl_append]

theorem mem_dedupFO (l : List String) (x : String) :
    x ∈ dedupFO l ↔ x ∈ l := by
  induction l using List.reverseRecOn with
  | nil => simp [dedupFO]
  | append_singleton l t ih =>
    rw [dedupFO_append_one]
    by_cases h : t ∈ dedupFO l
    · simp only [h, if_true, List.mem_append, List.mem_singleton, ih]
      constructor
      · intro hx
        exact Or.inl hx
      · rintro (hx | rfl)
        · exact hx
        · exact ih.mp h
    · simp [h, ih]

theorem nodup_dedupFO (l : List String) : (dedupFO l).Nodup := by
  induction l using List.reverseRecOn with
  | nil => simp [dedupFO]
  | append_singleton l t ih =>
    rw [dedupFO_append_one]
    by_cases h : t ∈ dedupFO l
    · simpa [h]
    · simpa [List.nodup_append, h] using ih

theorem addScore_map_not_mem (keys : List String) (f : String → ℚ × Nat)
    (t : String) (h : t ∉ keys) (s : ℚ) :
    addScore (keys.map (fun u => (u, f u))) t s
      = keys.map (fun u => (u, f u)) ++ [(t, s, 1)] := by
  induction keys with
  | nil => rfl
  | cons u ks ih =>
    have hut : ¬ u = t := fun huv => h (huv ▸ List.mem_cons_self u ks)
    simp only [List.map_cons, addScore, hut, if_false, List.cons_append]
    rw [ih (fun hmem => h (List.mem_cons_of_mem u hmem))]

theorem addScore_map_mem (keys : List String) (hnd : keys.Nodup)
    (f : String → ℚ × Nat) (t : String) (h : t ∈ keys) (s : ℚ) :
    addScore (keys.map (fun u => (u, f u))) t s
      = keys.map (fun u =>
          (u, (f u).1 + (if u = t then s else 0),
              (f u).2 + (if u = t then 1 else 0))) := by
  induction keys with
  | nil => exact absurd h (List.not_mem_nil t)
  | cons u ks ih =>
    rcases List.nodup_cons.mp hnd with ⟨hu, hks⟩
    by_cases hut : u = t
    · subst hut
      simp only [List.map_cons, addScore, if_true, if_pos rfl]
      congr 1
      apply List.map_congr_left
      intro x hx
      have hxu : ¬ x = u := fun hxu => hu (hxu ▸ hx)
      simp [hxu]
    · have ht' : t ∈ ks := by
        rcases List.mem_cons.mp h with h1 | h1
        · exact absurd h1.symm hut
        · exact h1
      simp only [List.map_cons, addScore, hut, if_false]
      rw [ih hks ht']
      simp [hut]

theorem catSum_append_one (pairs : List QA) (qa : QA) (t : String) :
    catSum (pairs ++ [qa]) t
      = catSum pairs t + (if qa.task = t then turnScore qa.answer else 0) := by
  simp only [catSum, catTurns, List.filter_append]
  by_cases h : qa.task = t
  · simp [h]
  · simp [h]

theorem catCount_append_one (pairs : List QA) (qa : QA) (t : String) :
    catCount (pairs ++ [qa]) t
      = catCount pairs t + (if qa.task = t then 1 else 0) := by
  simp only [catCount, catTurns, List.filter_append, List.length_append]
  by_cases h : qa.task = t
  · simp [h]
  · simp [h]

theorem catSum_eq_zero_of_not_mem (pairs : List QA) (t : String)
    (h : ∀ qa ∈ pairs, qa.task ≠ t) : catSum pairs t = 0 := by
  have : catTurns pairs t = [] := by
    simp only [catTurns, List.filter_eq_nil_iff]
    intro qa hqa
    simpa using h qa hqa
  simp [catSum, this]

theorem catCount_eq_zero_of_not_mem (pairs : List QA) (t : String)
    (h : ∀ qa ∈ pairs, qa.task ≠ t) : catCount pairs t = 0 := by
  have : catTurns pairs t = [] := by
    simp only [catTurns, List.filter_eq_nil_iff]
    intro qa hqa
    simpa using h qa hqa
  simp [catCount, this]

/-- The accumulation loop of `_score_answers` computes, in first-occurrence
key order, exactly the per-category sums and turn counts. -/
theorem scoreAcc_eq (pairs : List QA) :
    scoreAcc pairs
      = (taskKeys pairs).map (fun t => (t, catSum pairs t, catCount pairs t)) := by
  induction pairs using List.reverseRecOn with
  | nil => rfl
  | append_singleton ps qa ih =>
    have hfold : scoreAcc (ps ++ [qa])
        = addScore (scoreAcc ps) qa.task (turnScore qa.answer) := by
      simp [scoreAcc, List.foldl_append]
    have hkeys : taskKeys (ps ++ [qa])
        = if qa.task ∈ taskKeys ps then taskKeys ps
          else taskKeys ps ++ [qa.task] := by
      simp only [taskKeys, List.map_append, List.map_cons, List.map_nil]
      exact dedupFO_append_one (ps.map (fun p => p.task)) qa.task
    rw [hfold, ih]
    by_cases hmem : qa.task ∈ taskKeys ps
    · rw [addScore_map_mem (taskKeys ps) (nodup_dedupFO _)
        (fun t => (catSum ps t, catCount ps t)) qa.task hmem (turnScore qa.answer)]
      rw [hkeys, if_pos hmem]
      apply List.map_congr_left
      intro t ht
      rw [catSum_append_one, catCount_append_one]
      by_cases hq : t = qa.task
      · simp [hq]
      · have hq' : ¬ qa.task = t := fun hqt => hq hqt.symm
        simp [hq, hq']
    · rw [addScore_map_not_mem (taskKeys ps)
        (fun t => (catSum ps t, catCount ps t)) qa.task hmem (turnScore qa.answer)]
      rw [hkeys, if_neg hmem, List.map_append]
      have hnot : ∀ p ∈ ps, p.task ≠ qa.task := by
        intro p hp hpt
        exact hmem ((mem_dedupFO _ _).mpr (hpt ▸ List.mem_map_of_mem _ hp))
      congr 1
      · apply List.map_congr_left
        intro t ht
        have htmem : t ∈ ps.map (fun p => p.task) := (mem_dedupFO _ _).mp ht
        have htq : ¬ qa.task = t := by
          intro hqt
          exact hmem (hqt ▸ ht)
        rw [catSum_append_one, catCount_append_one]
        simp [htq]
      · have hsum : catSum (ps ++ [qa]) qa.task = turnScore qa.answer := by
          rw [catSum_append_one, catSum_eq_zero_of_not_mem ps qa.task hnot]
          simp
        have hcnt : catCount (ps ++ [qa]) qa.task = 1 := by
          rw [catCount_append_one, catCount_eq_zero_of_not_mem ps qa.task hnot]
          simp
        simp [hsum, hcnt]

theorem catCount_pos_of_mem_taskKeys (pairs : List QA) (t : String)
    (h : t ∈ taskKeys pairs) : 0 < catCount pairs t := by
  have : t ∈ pairs.map (fun qa => qa.task) := (mem_dedupFO _ _).mp h
  rcases List.mem_map.mp this with ⟨qa, hqa, hqt⟩
  have : qa ∈ catTurns pairs t := by
    simp only [catTurns, List.mem_filter]
    exact ⟨hqa, by simp [hqt]⟩
  have hne : catTurns pairs t ≠ [] := List.ne_nil_of_mem this
  simpa [catCount] using List.length_pos.mpr hne

theorem mem_taskKeys_iff (pairs : List QA) (t : String) :
    t ∈ taskKeys pairs ↔ 0 < catCount pairs t := by
  constructor
  · exact catCount_pos_of_mem_taskKeys pairs t
  · intro h
    have hne : catTurns pairs t ≠ [] := by
      intro hnil
      rw [catCount, hnil] at h
      simp at h
    rcases List.exists_mem_of_ne_nil _ hne with ⟨qa, hqa⟩
    have := List.mem_filter.mp hqa
    have hqt : qa.task = t := by simpa using this.2
    exact (mem_dedupFO _ _).mpr (hqt ▸ List.mem_map_of_mem _ this.1)

/-- The `per_task_scores` of `_score_answers`, characterised. -/
theorem per_task_scores_eq (persona : String) (pairs : List QA) :
    (score_answers persona pairs).per_task_scores
      = (taskKeys pairs).map (fun t => (t, catMean pairs t)) := by
  simp only [score_answers, scoreAcc_eq, List.map_map]
  apply List.map_congr_left
  intro t ht
  have hpos : 0 < catCount pairs t := catCount_pos_of_mem_taskKeys pairs t ht
  simp [Function.comp, catMean, hpos]

/-!  Claim C1. -/

/-- C1: the per-category map of `_score_answers` holds, for exactly the
categories with at least one turn and in first-occurrence order, the
arithmetic mean of that category's turn scores; the overall score is `0.0`
for an empty record sequence and otherwise the arithmetic mean of the
per-category means, each category weighted equally. -/
theorem score_answers_spec (persona : String) (pairs : List QA) :
    (score_answers persona pairs).per_task_scores
      = (taskKeys pairs).map (fun t => (t, catMean pairs t))
    ∧ (∀ t, t ∈ (score_answers persona pairs).per_task_scores.map
          (fun e => e.1) ↔ 0 < catCount pairs t)
    ∧ (pairs = [] → (score_answers persona pairs).overall_score = 0)
    ∧ (pairs ≠ [] →
        (score_answers persona pairs).overall_score
          = ((taskKeys pairs).map (fun t => catMean pairs t)).sum
              / ((taskKeys pairs).length : ℚ)) := by
  have hpt := per_task_scores_eq persona pairs
  refine ⟨hpt, ?_, ?_, ?_⟩
  · intro t
    rw [hpt, List.map_map]
    have : ((fun e => e.1) ∘ fun t => (t, catMean pairs t)) = fun t : String => t := rfl
    rw [this, List.map_id']
    exact mem_taskKeys_iff pairs t
  · intro hnil
    subst hnil
    rfl
  · intro hne
    have hkeysne : taskKeys pairs ≠ [] := by
      rcases List.exists_mem_of_ne_nil _ hne with ⟨qa, hqa⟩
      have : qa.task ∈ taskKeys pairs :=
        (mem_dedupFO _ _).mpr (List.mem_map_of_mem _ hqa)
      exact List.ne_nil_of_mem this
    have hptne : (score_answers persona pairs).per_task_scores ≠ [] := by
      rw [hpt]
      simpa using hkeysne
    show (if ((scoreAcc pairs).map _).isEmpty then (0 : ℚ) else _) = _
    have hpt' : (scoreAcc pairs).map
        (fun e => (e.1, if 0 < e.2.2 then e.2.1 / (e.2.2 : ℚ) else e.2.1))
        = (score_answers persona pairs).per_task_scores := rfl
    rw [hpt', hpt]
    have hne' : ¬ ((taskKeys pairs).map (fun t => (t, catMean pairs t))).isEmpty = true := by
      simpa using hkeysne
    rw [if_neg hne', List.map_map, List.length_map]
    have : ((fun e : String × ℚ => e.2) ∘ fun t => (t, catMean pairs t))
        = fun t => catMean pairs t := rfl
    rw [this]

/-- Concrete records with unequal category turn-counts: category A has an
error-marked turn (score 0) and a short turn (score 1), category B a single
short turn (score 1). -/
def qaW : List QA :=
  [QA.mk "A" "q" "Error down", QA.mk "A" "q" "hi", QA.mk "B" "q" "ok"]

theorem turnScore_err : turnScore "Error down" = 0 := by
  simp [turnScore, (by decide : pyStartsWith "Error down" "Error" = true)]

theorem turnScore_hi : turnScore "hi" = 1 := by
  have h : pyStartsWith "hi" "Error" = false := by decide
  have hl : "hi".length = 2 := rfl
  simp only [turnScore, h, Bool.false_eq_true, if_false, hl]
  rw [max_def, min_def]
  norm_num

theorem turnScore_ok : turnScore "ok" = 1 := by
  have h : pyStartsWith "ok" "Error" = false := by decide
  have hl : "ok".length = 2 := rfl
  simp only [turnScore, h, Bool.false_eq_true, if_false, hl]
  rw [max_def, min_def]
  norm_num

theorem keysW : taskKeys qaW = ["A", "B"] := by decide

theorem meanA : catMean qaW "A" = 1 / 2 := by
  have h1 : catTurns qaW "A" = [QA.mk "A" "q" "Error down", QA.mk "A" "q" "hi"] := by
    decide
  rw [catMean, catSum, catCount, h1]
  simp [turnScore_err, turnScore_hi]

theorem meanB : catMean qaW "B" = 1 := by
  have h1 : catTurns qaW "B" = [QA.mk "B" "q" "ok"] := by decide
  rw [catMean, catSum, catCount, h1]
  simp [turnScore_ok]

/-- Witness for C1: on `qaW` the overall score is the equal-weight mean of the
category means `1/2` and `1`, namely `3/4` — not the raw-turn mean `2/3`. -/
theorem score_answers_spec_witness :
    (score_answers "p" qaW).overall_score
      = ((taskKeys qaW).map (fun t => catMean qaW t)).sum
          / ((taskKeys qaW).length : ℚ)
    ∧ (score_answers "p" qaW).overall_score = 3 / 4 := by
  have h := (score_answers_spec "p" qaW).2.2.2 (by decide)
  refine ⟨h, ?_⟩
  rw [h, keysW]
  simp [meanA, meanB]
  norm_num

/-!  Persona discovery, request validation and the orchestration of
`run_eval`. -/

/-- Python's `s.rstrip("/")`: drop every trailing slash. -/
def rstripSlash (s : String) : String :=
  String.mk ((s.data.reverse.dropWhile (fun c => c = '/')).reverse)

/-- `profile_url = f"{white_agent_url.rstrip('/')}/profile"`. -/
def profile_url (white_agent_url : String) : String :=
  rstripSlash white_agent_url ++ "/profile"

/-- The observable outcome of the one `GET /profile` request issued by
`_get_persona_from_profile`: a transport failure (`httpx.RequestError`), any
other raised error (non-2xx status, malformed JSON), or a JSON object whose
`persona_description` entry is the given optional string. -/
inductive ProfileResponse where
  | requestError
  | otherError
  | ok (persona_description : Option String)
deriving DecidableEq

/-- Embedding of `_get_persona_from_profile(self, white_agent_url)`. -/
def get_persona_from_profile (white_agent_url : String)
    (resp : ProfileResponse) : String :=
  match resp with
  | .ok field => field.getD "Error: Persona description not found."
  | .requestError =>
    "Error: Failed to connect to White Agent at " ++ profile_url white_agent_url
  | .otherError => "Error: Could not retrieve persona."

/-- The `result_data` assembled by a completed `run_eval` (the float
`time_used` of the source is out of this model). -/
structure Report where
  persona : String
  persona_score : ℚ
  per_task_scores : List (String × ℚ)
  num_questions : Nat
deriving DecidableEq

/-- How one evaluation run terminates: rejected by `validate_request`,
aborted by the `except` clause of `run_eval` with the surfaced failure
message, or completed with a report artifact. -/
inductive RunResult where
  | validationFailed (reason : String)
  | evalFailed (message : String)
  | done (report : Report)
deriving DecidableEq

/-- `true` exactly on a completed run. -/
def isDone : RunResult → Bool
  | .done _ => true
  | _ => false

/-- Embedding of `run_eval(self, req, updater)` after validation, paired with
the number of network requests issued to the subject (one for the `/profile`
discovery call and one per `send_message` turn).  A persona beginning with
`"Error"` raises `ValueError(f"Failed to get persona: {persona}")`, which the
`except` clause surfaces as `f"Evaluation failed: {e}"` and no further request
is issued; otherwise the run generates questions, asks them all and scores the
answers. -/
def run_eval (white_agent_url : String) (num_questions : Int) (domain : String)
    (profile : ProfileResponse) (env : Nat → Except String SendResult) :
    RunResult × Nat :=
  let persona := get_persona_from_profile white_agent_url profile
  if pyStartsWith persona "Error" then
    (.evalFailed ("Evaluation failed: Failed to get persona: " ++ persona), 1)
  else
    let questions := generate_questions persona num_questions domain
    let qa_pairs := ask_questions env questions
    let scores := score_answers persona qa_pairs
    (.done { persona := persona,
             persona_score := scores.overall_score,
             per_task_scores := scores.per_task_scores,
             num_questions := questions.length },
     1 + questions.length)

/-- `self._required_roles` of `PersonaGymEvaluator`. -/
def required_roles : List String := ["agent"]

/-- Python's `f"{s}"` for a set of strings, e.g. `{'agent'}`. -/
def pySetRepr (xs : List String) : String :=
  "\x7b" ++ String.intercalate ", " (xs.map (fun s => "\x27" ++ s ++ "\x27")) ++ "\x7d"

/-- Embedding of `validate_request(self, request)`: the request's participant
mapping is represented by its list of role keys. -/
def validate_request (participants : List String) : Bool × String :=
  let missing := required_roles.filter (fun r => decide (r ∉ participants))
  if missing.isEmpty then (true, "ok")
  else (false, "Missing roles: " ++ pySetRepr missing)

/-- Modelled from the spec: the executor driving `PersonaGymEvaluator` (the
`GreenExecutor` imported from the external `agentbeats` package, absent from
the repository sources) runs `validate_request` first and, per §4.5, a missing
role terminates the run as a validation failure with no network call made;
only a validated request reaches `run_eval`. -/
def run (participants : List String) (white_agent_url : String)
    (num_questions : Int) (domain : String) (profile : ProfileResponse)
    (env : Nat → Except String SendResult) : RunResult × Nat :=
  let v := validate_request participants
  if v.1 then run_eval white_agent_url num_questions domain profile env
  else (.validationFailed v.2, 0)

/-!  Claims C7, C8, C10 and C4. -/

/-- C7: when the discovered persona is an error marker, `run_eval` aborts with
a failure message naming the discovery step, emits no report, and issues no
request beyond the discovery call — it never reaches question generation,
conversation or scoring. -/
theorem run_eval_discovery_failure_spec (white_agent_url : String)
    (num_questions : Int) (domain : String) (profile : ProfileResponse)
    (env : Nat → Except String SendResult)
    (h : pyStartsWith (get_persona_from_profile white_agent_url profile)
        "Error" = true) :
    run_eval white_agent_url num_questions domain profile env
      = (.evalFailed ("Evaluation failed: Failed to get persona: "
          ++ get_persona_from_profile white_agent_url profile), 1) := by
  simp [run_eval, h]

/-- Witness for C7: an unreachable subject. -/
theorem run_eval_discovery_failure_spec_witness :
    run_eval "http://w" 4 "general" ProfileResponse.requestError
        (fun _ => Except.error "down")
      = (.evalFailed ("Evaluation failed: Failed to get persona: "
          ++ get_persona_from_profile "http://w" ProfileResponse.requestError), 1) :=
  run_eval_discovery_failure_spec "http://w" 4 "general"
    ProfileResponse.requestError (fun _ => Except.error "down") (by decide)

/-- C8: a request whose participants lack the `"agent"` role fails validation
with a reason naming the missing role, the run terminates as a validation
failure, and zero network requests are issued; a request with the `"agent"`
role validates successfully. -/
theorem validate_request_spec (participants : List String)
    (white_agent_url : String) (num_questions : Int) (domain : String)
    (profile : ProfileResponse) (env : Nat → Except String SendResult) :
    ("agent" ∉ participants →
      validate_request participants
          = (false, "Missing roles: " ++ pySetRepr ["agent"])
      ∧ run participants white_agent_url num_questions domain profile env
          = (.validationFailed ("Missing roles: " ++ pySetRepr ["agent"]), 0))
    ∧ ("agent" ∈ participants → validate_request participants = (true, "ok")) := by
  constructor
  · intro h
    have hv : validate_request participants
        = (false, "Missing roles: " ++ pySetRepr ["agent"]) := by
      simp [validate_request, required_roles, List.filter, h]
    exact ⟨hv, by simp [run, hv]⟩
  · intro h
    simp [validate_request, required_roles, List.filter, h]

/-- Witness for C8: an empty participant mapping is rejected with zero
network calls, and one carrying `"agent"` validates. -/
theorem validate_request_spec_witness :
    (validate_request [] = (false, "Missing roles: " ++ pySetRepr ["agent"])
      ∧ run [] "http://w" 4 "general" ProfileResponse.requestError
          (fun _ => Except.error "down")
          = (.validationFailed ("Missing roles: " ++ pySetRepr ["agent"]), 0))
    ∧ validate_request ["agent"] = (true, "ok") :=
  ⟨(validate_request_spec [] "http://w" 4 "general" ProfileResponse.requestError
      (fun _ => Except.error "down")).1 (by decide),
   (validate_request_spec ["agent"] "http://w" 4 "general"
      ProfileResponse.requestError (fun _ => Except.error "down")).2 (by decide)⟩

/-- C10: discovery failure is signalled in-band by the `"Error"` prefix, so a
subject whose `/profile` call succeeds with a `persona_description` that
itself begins with `"Error"` aborts the run as a discovery failure. -/
theorem inband_error_persona_spec (white_agent_url s : String)
    (num_questions : Int) (domain : String)
    (env : Nat → Except String SendResult)
    (h : pyStartsWith s "Error" = true) :
    get_persona_from_profile white_agent_url (.ok (some s)) = s
    ∧ run_eval white_agent_url num_questions domain (.ok (some s)) env
        = (.evalFailed ("Evaluation failed: Failed to get persona: " ++ s), 1) := by
  refine ⟨rfl, ?_⟩
  simp [run_eval, get_persona_from_profile, h]

/-- Witness for C10: a successfully served persona that happens to start with
`"Error"`. -/
theorem inband_error_persona_spec_witness :
    get_persona_from_profile "http://w" (.ok (some "Error by design"))
      = "Error by design"
    ∧ run_eval "http://w" 4 "general" (.ok (some "Error by design"))
        (fun _ => Except.error "down")
        = (.evalFailed ("Evaluation failed: Failed to get persona: Error by design"), 1) :=
  inband_error_persona_spec "http://w" "Error by design" 4 "general"
    (fun _ => Except.error "down") (by decide)

/-- Counterexample to C4 as stated: a `/profile` response carrying an *empty*
`persona_description` does not yield the `MissingField` marker — discovery
returns `""`, and the orchestrator proceeds past discovery (it issues the
turn requests: five network calls for four questions, instead of aborting
after the single discovery call). -/
theorem empty_persona_counterexample :
    get_persona_from_profile "http://w" (.ok (some "")) = ""
    ∧ get_persona_from_profile "http://w" (.ok (some ""))
        ≠ "Error: Persona description not found."
    ∧ isDone (run_eval "http://w" 4 "general" (.ok (some ""))
        (fun _ => Except.ok ⟨some "hello", none⟩)).1 = true
    ∧ (run_eval "http://w" 4 "general" (.ok (some ""))
        (fun _ => Except.ok ⟨some "hello", none⟩)).2 = 5 := by
  refine ⟨rfl, by decide, ?_, ?_⟩
  · simp [run_eval, get_persona_from_profile, (by decide : pyStartsWith "" "Error" = false),
      isDone]
  · simp [run_eval, get_persona_from_profile, (by decide : pyStartsWith "" "Error" = false)]
    decide

/-- C4 amended: discovery reports the `MissingField` marker only when the
`persona_description` field is *absent* from the profile JSON, and then the
orchestrator aborts without further requests; a present field — the empty
string included — is returned as the persona unchanged, and when it does not
begin with `"Error"` the orchestrator proceeds to question generation and the
conversation. -/
theorem persona_field_spec (white_agent_url : String) (num_questions : Int)
    (domain : String) (env : Nat → Except String SendResult) :
    (get_persona_from_profile white_agent_url (.ok none)
        = "Error: Persona description not found."
      ∧ run_eval white_agent_url num_questions domain (.ok none) env
          = (.evalFailed
              ("Evaluation failed: Failed to get persona: Error: Persona description not found."),
             1))
    ∧ (∀ s : String, pyStartsWith s "Error" = false →
        get_persona_from_profile white_agent_url (.ok (some s)) = s
        ∧ isDone (run_eval white_agent_url num_questions domain (.ok (some s)) env).1
            = true
        ∧ (run_eval white_agent_url num_questions domain (.ok (some s)) env).2
            = 1 + (generate_questions s num_questions domain).length) := by
  constructor
  · refine ⟨rfl, ?_⟩
    simp [run_eval, get_persona_from_profile,
      (by decide : pyStartsWith "Error: Persona description not found." "Error" = true)]
  · intro s hs
    refine ⟨rfl, ?_, ?_⟩
    · simp [run_eval, get_persona_from_profile, hs, isDone]
    · simp [run_eval, get_persona_from_profile, hs]

/-- Witness for the amended C4 at an absent field and at the present-but-empty
field. -/
theorem persona_field_spec_witness :
    (get_persona_from_profile "http://w" (.ok none)
        = "Error: Persona description not found."
      ∧ run_eval "http://w" 4 "general" (.ok none)
          (fun _ => Except.ok ⟨some "hello", none⟩)
          = (.evalFailed
              ("Evaluation failed: Failed to get persona: Error: Persona description not found."),
             1))
    ∧ (get_persona_from_profile "http://w" (.ok (some "")) = ""
      ∧ isDone (run_eval "http://w" 4 "general" (.ok (some ""))
          (fun _ => Except.ok ⟨some "hello", none⟩)).1 = true
      ∧ (run_eval "http://w" 4 "general" (.ok (some ""))
          (fun _ => Except.ok ⟨some "hello", none⟩)).2
          = 1 + (generate_questions "" 4 "general").length) :=
  ⟨(persona_field_spec "http://w" 4 "general"
      (fun _ => Except.ok ⟨some "hello", none⟩)).1,
   (persona_field_spec "http://w" 4 "general"
      (fun _ => Except.ok ⟨some "hello", none⟩)).2 "" (by decide)⟩

end PersonaGym
